import Mathlib

/-
Verification of the Streaming Chat Session Engine of the
danglinhphan/HealthCareforReal frontend.

The embedding below mirrors two source files:
  - Frontend/lib/api.ts        (streamChat: line-oriented SSE event loop)
  - Frontend/lib/chat-store.ts (zustand store: sendMessage, loadConversation,
                                clearChat and the three streaming callbacks)
plus the submit guard of the chat interface component (handleSubmit).

Identifiers and timestamps produced by Date.now() are modelled as naturals.
Network interactions are modelled by an environment record giving the outcome
of each awaited call, and by a trace of the calls the operation issued.
-/

namespace HealthChat

/-- Role of a chat message: the store's Message.role field, 'user' or
'assistant'. -/
inductive Role
  | user
  | assistant
deriving DecidableEq, Repr

/-- A transcript message as stored by chat-store.ts: id, role, content,
created_at. -/
structure Message where
  id : Nat
  role : Role
  content : String
  created_at : Nat
deriving DecidableEq, Repr

/-- The session state owned by the zustand chat store (chat-store.ts):
messages, isLoading, isStreaming, currentMessage, streamingMessage,
currentConversationId. -/
structure ChatState where
  messages : List Message
  isLoading : Bool
  isStreaming : Bool
  currentMessage : String
  streamingMessage : String
  currentConversationId : Option Nat
deriving DecidableEq, Repr

/-- The store's initial state (chat-store.ts lines 41-46). -/
def initialState : ChatState :=
  { messages := [], isLoading := false, isStreaming := false,
    currentMessage := "", streamingMessage := "", currentConversationId := none }

/-- The spec's derived session status: streaming while isStreaming is set,
sending while only isLoading is set, idle when both flags are clear. -/
inductive Status
  | idle
  | sending
  | streaming
deriving DecidableEq, Repr

/-- Map the store's two boolean flags to the spec's status. -/
def status (s : ChatState) : Status :=
  if s.isStreaming then Status.streaming
  else if s.isLoading then Status.sending
  else Status.idle

/-- One parsed `data: ` line of the streaming response body, as discriminated
by the switch in streamChat (api.ts lines 278-298).  `noise` stands for a
malformed JSON fragment or any other line the parser ignores. -/
inductive StreamLine
  | chunk (content : String)
  | complete
  | done
  | error (msg : String)
  | noise
deriving DecidableEq, Repr

/-- The onChunk callback sendMessage passes to streamChat (chat-store.ts
lines 143-147): append the chunk to streamingMessage. -/
def onChunk (s : ChatState) (c : String) : ChatState :=
  { s with streamingMessage := s.streamingMessage ++ c }

/-- The onComplete callback (chat-store.ts lines 149-163): append an
assistant message with the accumulated full text and id Date.now()+1, clear
the buffer and both busy flags. -/
def onComplete (s : ChatState) (fullMessage : String) (now : Nat) : ChatState :=
  { s with
    messages := s.messages ++
      [{ id := now + 1, role := Role.assistant, content := fullMessage,
         created_at := now }],
    streamingMessage := "",
    isStreaming := false,
    isLoading := false }

/-- The state effect of the onError callback (chat-store.ts lines 165-169):
clear both busy flags.  The callback then throws, but the throw lands in the
catch block of api.ts line 299 — the one that swallows JSON parse noise — so
it never escapes streamChat (see processLines). -/
def onError (s : ChatState) : ChatState :=
  { s with isLoading := false, isStreaming := false }

/-- The read loop of streamChat (api.ts lines 263-305) over the parsed
`data: ` lines, with the store's callbacks folded in.  `full` is streamChat's
local fullMessage accumulator.
  - chunk: only a truthy (non-empty) content is accumulated and forwarded;
  - complete: onComplete receives the accumulated full message;
  - done: streamChat returns immediately;
  - error: onError runs, then both the callback's throw and streamChat's own
    `throw new Error(parsed.error)` are caught by the catch that ignores JSON
    parsing errors (api.ts line 299), so the loop continues;
  - noise: ignored, the loop continues. -/
def processLines (now : Nat) : List StreamLine → ChatState → String → ChatState
  | [], s, _ => s
  | StreamLine.chunk c :: rest, s, full =>
      if c = "" then processLines now rest s full
      else processLines now rest (onChunk s c) (full ++ c)
  | StreamLine.complete :: rest, s, full =>
      processLines now rest (onComplete s full now) full
  | StreamLine.done :: _, s, _ => s
  | StreamLine.error _ :: rest, s, full => processLines now rest (onError s) full
  | StreamLine.noise :: rest, s, full => processLines now rest s full

/-- A network call issued by the send path: the conversation-creation POST
or the streaming message POST. -/
inductive NetCall
  | createConversation (firstMessage : String)
  | openStream (conversationId : Nat) (content : String)
deriving DecidableEq, Repr

/-- Environment for one send: whether localStorage holds a user record, the
outcome of createConversation (a fresh conversation id, or failure), and the
stream body returned by the message POST (none models a transport failure). -/
structure Env where
  userData : Bool
  createResult : Option Nat
  streamBody : Option (List StreamLine)
deriving Repr

/-- Outcome of the store's sendMessage promise: resolved, or rejected with a
message. -/
inductive SendResult
  | ok
  | error (msg : String)
deriving DecidableEq, Repr

/-- The tail of sendMessage once a conversation id is at hand (chat-store.ts
lines 124-170): optimistic append of the user message, buffer reset, then
streamChat.  A transport failure rejects after the store catch resets the
flags; once a stream body is obtained streamChat only ever returns normally
(its internal throws are swallowed, see processLines). -/
def streamPhase (env : Env) (message : String) (now : Nat) (s : ChatState)
    (cid : Nat) (calls : List NetCall) : ChatState × SendResult × List NetCall :=
  let s1 := { s with messages := s.messages ++
      [({ id := now, role := Role.user, content := message,
          created_at := now } : Message)] }
  let s2 := { s1 with streamingMessage := "" }
  match env.streamBody with
  | none =>
      ({ s2 with isLoading := false, isStreaming := false },
       SendResult.error "Failed to send message",
       calls ++ [NetCall.openStream cid message])
  | some lines =>
      (processLines now lines s2 "", SendResult.ok,
       calls ++ [NetCall.openStream cid message])

/-- The store's sendMessage (chat-store.ts lines 103-176): set both busy
flags, require a user record, create a conversation when none is current,
then run the streaming phase.  Failures before the stream is open are caught
by the store's catch, which resets the flags and rethrows. -/
def sendMessage (env : Env) (message : String) (now : Nat) (s0 : ChatState) :
    ChatState × SendResult × List NetCall :=
  let s := { s0 with isLoading := true, isStreaming := true }
  if env.userData = false then
    ({ s with isLoading := false, isStreaming := false },
     SendResult.error "User not authenticated", [])
  else
    match s0.currentConversationId with
    | some cid => streamPhase env message now s cid []
    | none =>
        match env.createResult with
        | none =>
            ({ s with isLoading := false, isStreaming := false },
             SendResult.error "Failed to create conversation",
             [NetCall.createConversation message])
        | some cid =>
            streamPhase env message now
              { s with currentConversationId := some cid } cid
              [NetCall.createConversation message]

/-- clearChat (chat-store.ts line 70): empty the transcript, the streaming
buffer, the draft message and the conversation id.  The two busy flags are
not part of the partial set and stay as they were. -/
def clearChat (s : ChatState) : ChatState :=
  { s with messages := [], streamingMessage := "", currentMessage := "",
           currentConversationId := none }

/-- A transcript message as returned by the conversation fetch (api.ts
Message: role, content, timestamp). -/
structure ApiMessage where
  role : Role
  content : String
  timestamp : Nat
deriving DecidableEq, Repr

/-- Environment for one loadConversation: whether localStorage holds a user
record, and the fetched message list (none models a failed fetch). -/
structure LoadEnv where
  userData : Bool
  fetchResult : Option (List ApiMessage)
deriving Repr

/-- loadConversation (chat-store.ts lines 74-101): set isLoading, require a
user record, fetch the transcript and replace messages wholesale with ids
Date.now()+index; every failure is caught inside the function, which then
only resets isLoading, so no exception reaches the caller. -/
def loadConversation (env : LoadEnv) (conversationId : Nat) (now : Nat)
    (s0 : ChatState) : ChatState :=
  let s := { s0 with isLoading := true }
  if env.userData = false then { s with isLoading := false }
  else
    match env.fetchResult with
    | none => { s with isLoading := false }
    | some msgs =>
        { s with
          messages := msgs.mapIdx fun i m =>
            { id := now + i, role := m.role, content := m.content,
              created_at := m.timestamp },
          currentConversationId := some conversationId,
          isLoading := false }

/-- An executable model of JS String.prototype.trim: remove leading and
trailing whitespace (used by the submit guard on the raw input). -/
def jsTrim (s : String) : String :=
  String.mk (((s.data.dropWhile Char.isWhitespace).reverse.dropWhile
    Char.isWhitespace).reverse)

/-- The submit guard of the chat interface component (handleSubmit): blank
input or a busy store short-circuits before setInput('') and before any call
into the store; otherwise the trimmed text is sent. -/
def handleSubmit (env : Env) (input : String) (now : Nat) (s : ChatState) :
    ChatState × List NetCall :=
  if jsTrim input = "" ∨ s.isLoading = true ∨ s.isStreaming = true then (s, [])
  else
    let r := sendMessage env (jsTrim input) now s
    (r.1, r.2.2)

/-- Concatenation of a list of chunk contents in emission order. -/
def concatContents : List String → String
  | [] => ""
  | c :: cs => c ++ concatContents cs

/-- Folding a block of chunk lines into the state appends the concatenation
of their contents to the buffer and to the fullMessage accumulator, and then
processing continues with the remaining lines. -/
theorem processLines_chunks_append (now : Nat) (cs : List String)
    (rest : List StreamLine) (s : ChatState) (full : String) :
    processLines now (cs.map StreamLine.chunk ++ rest) s full
      = processLines now rest
          { s with streamingMessage := s.streamingMessage ++ concatContents cs }
          (full ++ concatContents cs) := by
  induction cs generalizing s full with
  | nil => simp [concatContents, String.append_empty]
  | cons c cs ih =>
      by_cases hc : c = ""
      · subst hc
        simp [processLines, concatContents, String.empty_append, ih]
      · simp [processLines, hc, concatContents, onChunk, ih, String.append_assoc]

/-- Folding a stream consisting only of chunk lines appends the
concatenation of their contents to the buffer and changes nothing else. -/
theorem processLines_chunks (now : Nat) (cs : List String) (s : ChatState)
    (full : String) :
    processLines now (cs.map StreamLine.chunk) s full
      = { s with streamingMessage := s.streamingMessage ++ concatContents cs } := by
  have h := processLines_chunks_append now cs [] s full
  simpa [processLines] using h

end HealthChat

namespace HealthChat

/-- Claim C1: the spec says a stream producing chunk("A"), error("boom")
ends with an empty buffer and a failure carrying "boom" surfaced to the
caller.  Evaluating the code at that stream shows otherwise: the buffer
retains "A" and the send resolves successfully, because the throw raised
after onError (api.ts line 296, and the rethrow inside the store's onError
callback) is caught by the very catch that swallows JSON parse noise
(api.ts line 299).  The parts of the claim that do hold — no assistant
message appended, status idle — are visible in the same final state. -/
theorem c1_stream_error_swallowed :
    sendMessage ⟨true, none, some [StreamLine.chunk "A", StreamLine.error "boom"]⟩
        "hi" 10 { initialState with currentConversationId := some 1 }
      = ({ messages :=
             [{ id := 10, role := Role.user, content := "hi", created_at := 10 }],
           isLoading := false, isStreaming := false, currentMessage := "",
           streamingMessage := "A", currentConversationId := some 1 },
         SendResult.ok, [NetCall.openStream 1 "hi"]) := by
  decide

/-- Claim C2: the spec says a stream producing only done ends with no new
assistant message and status idle.  Evaluating the code at that stream shows
the first half holds but not the second: streamChat returns on done without
ever invoking onComplete or onError, and sendMessage never resets the two
busy flags it set at entry, so the session is left with isLoading and
isStreaming both true — status streaming, not idle. -/
theorem c2_done_only_stream_leaves_busy_flags :
    sendMessage ⟨true, none, some [StreamLine.done]⟩ "hi" 10
        { initialState with currentConversationId := some 1 }
      = ({ messages :=
             [{ id := 10, role := Role.user, content := "hi", created_at := 10 }],
           isLoading := true, isStreaming := true, currentMessage := "",
           streamingMessage := "", currentConversationId := some 1 },
         SendResult.ok, [NetCall.openStream 1 "hi"])
    ∧ status (sendMessage ⟨true, none, some [StreamLine.done]⟩ "hi" 10
        { initialState with currentConversationId := some 1 }).1 ≠ Status.idle := by
  decide

/-- Claim C3, counterexample: the store's sendMessage called directly with
the empty string is not rejected — it issues both network calls (conversation
creation and the stream POST) and mutates the session state. -/
theorem c3_store_send_accepts_blank :
    (sendMessage ⟨true, some 5, some []⟩ "" 10 initialState).2.2
      = [NetCall.createConversation "", NetCall.openStream 5 ""]
    ∧ (sendMessage ⟨true, some 5, some []⟩ "" 10 initialState).1
        ≠ initialState := by
  decide

/-- Claim C3, amended: input that trims to empty is rejected by the UI
submit guard, which returns before any store call or network call, leaving
the state untouched; the emptiness check lives only in that guard, not in
the store's sendMessage. -/
theorem c3_submit_guard_rejects_blank (env : Env) (input : String) (now : Nat)
    (s : ChatState) (h : jsTrim input = "") :
    handleSubmit env input now s = (s, []) := by
  simp [handleSubmit, h]

/-- Witness for c3_submit_guard_rejects_blank at input "   ". -/
theorem c3_submit_guard_rejects_blank_witness :
    handleSubmit ⟨true, some 5, some []⟩ "   " 10 initialState
      = (initialState, []) :=
  c3_submit_guard_rejects_blank ⟨true, some 5, some []⟩ "   " 10 initialState
    (by decide)

/-- Claim C4, counterexample: the store's sendMessage called while a stream
is in flight (both busy flags set, buffer holding "PART") is neither rejected
nor ignored: it opens a second stream and resets the shared buffer, whose
content after the call is the second stream's chunk "X" instead of "PART". -/
theorem c4_store_send_overwrites_inflight_buffer :
    (sendMessage ⟨true, none, some [StreamLine.chunk "X"]⟩ "second" 20
        { initialState with
            isLoading := true, isStreaming := true,
            streamingMessage := "PART",
            currentConversationId := some 1 }).1.streamingMessage = "X"
    ∧ (sendMessage ⟨true, none, some [StreamLine.chunk "X"]⟩ "second" 20
        { initialState with
            isLoading := true, isStreaming := true,
            streamingMessage := "PART",
            currentConversationId := some 1 }).2.2 ≠ [] := by
  decide

/-- Claim C4, amended: while a send is in flight, further sends are ignored
by the UI submit guard (state untouched, no network call); the store's
sendMessage itself has no busy guard and corrupts the in-flight buffer when
invoked directly. -/
theorem c4_submit_guard_ignores_while_streaming (env : Env) (input : String)
    (now : Nat) (s : ChatState) (h : s.isStreaming = true) :
    handleSubmit env input now s = (s, []) := by
  simp [handleSubmit, h]

/-- Witness for c4_submit_guard_ignores_while_streaming at a streaming
state. -/
theorem c4_submit_guard_ignores_while_streaming_witness :
    handleSubmit ⟨true, none, some [StreamLine.chunk "X"]⟩ "second" 20
        { initialState with isStreaming := true, streamingMessage := "PART" }
      = ({ initialState with isStreaming := true, streamingMessage := "PART" },
         []) :=
  c4_submit_guard_ignores_while_streaming ⟨true, none, some [StreamLine.chunk "X"]⟩
    "second" 20 { initialState with isStreaming := true, streamingMessage := "PART" }
    rfl

/-- Claim C5, counterexample: clearChat called while the busy flags are set
does not return the session to idle — the partial zustand set of
chat-store.ts line 70 touches neither isLoading nor isStreaming. -/
theorem c5_clear_keeps_busy_flags :
    status (clearChat { initialState with
        isLoading := true, isStreaming := true,
        streamingMessage := "PART" }) ≠ Status.idle
    ∧ (clearChat { initialState with
        isLoading := true, isStreaming := true,
        streamingMessage := "PART" }).isStreaming = true := by
  decide

/-- Claim C5, amended: clearChat always yields an empty transcript, an empty
streaming buffer, an empty draft message and a null conversation id, and
never fails, but it leaves the two busy flags exactly as they were, so the
resulting status is idle only when the session was already not busy. -/
theorem c5_clear_resets_data_fields (s : ChatState) :
    (clearChat s).messages = []
    ∧ (clearChat s).streamingMessage = ""
    ∧ (clearChat s).currentMessage = ""
    ∧ (clearChat s).currentConversationId = none
    ∧ (clearChat s).isLoading = s.isLoading
    ∧ (clearChat s).isStreaming = s.isStreaming := by
  simp [clearChat]

/-- Claim C6, counterexample: a single send from the initial state whose
stream is chunk("A") then error("boom") reaches a state with status idle and
a non-empty streaming buffer, refuting the invariant that the buffer is
non-empty only while streaming. -/
theorem c6_idle_with_nonempty_buffer_reachable :
    status (sendMessage
        ⟨true, some 5, some [StreamLine.chunk "A", StreamLine.error "boom"]⟩
        "hi" 10 initialState).1 = Status.idle
    ∧ (sendMessage
        ⟨true, some 5, some [StreamLine.chunk "A", StreamLine.error "boom"]⟩
        "hi" 10 initialState).1.streamingMessage = "A" := by
  decide

/-- Claim C6, amended: the buffer is cleared at the transition to idle made
by completion and by clear; the transition to idle made by a stream error
clears only the busy flags and retains the partial buffer content, so after
an error the session can be idle with a non-empty buffer. -/
theorem c6_buffer_cleared_on_complete_and_clear_only (s : ChatState)
    (full : String) (now : Nat) :
    (onComplete s full now).streamingMessage = ""
    ∧ status (onComplete s full now) = Status.idle
    ∧ (clearChat s).streamingMessage = ""
    ∧ (onError s).streamingMessage = s.streamingMessage
    ∧ status (onError s) = Status.idle := by
  simp [onComplete, onError, clearChat, status]

/-- Claim C7: for every sequence of chunk events, the final streaming buffer
equals the concatenation of the chunk contents in emission order, and the
accumulated full message handed to a following complete event — the content
of the assistant message it appends — is that same concatenation. -/
theorem c7_buffer_is_concat_of_chunks (cs : List String) (s : ChatState)
    (now : Nat) :
    (processLines now (cs.map StreamLine.chunk)
        { s with streamingMessage := "" } "").streamingMessage
      = concatContents cs
    ∧ (processLines now (cs.map StreamLine.chunk ++ [StreamLine.complete])
        { s with streamingMessage := "" } "").messages
      = s.messages ++
        [{ id := now + 1, role := Role.assistant, content := concatContents cs,
           created_at := now }] := by
  constructor
  · have h := processLines_chunks_append now cs [] { s with streamingMessage := "" } ""
    simp [processLines, String.empty_append] at h
    simp [h]
  · have h := processLines_chunks_append now cs [StreamLine.complete]
      { s with streamingMessage := "" } ""
    simp [processLines, String.empty_append, onComplete] at h
    simp [h, processLines, onComplete, String.empty_append]

/-- Claim C8: a stream producing chunk("A"), chunk("B"), complete makes send
append exactly the optimistic user message and one assistant message with
content "AB", clear the buffer and both busy flags, and resolve. -/
theorem c8_chunk_chunk_complete_appends_ab (env : Env) (s : ChatState)
    (msg : String) (cid now : Nat)
    (hu : env.userData = true)
    (hb : env.streamBody
      = some [StreamLine.chunk "A", StreamLine.chunk "B", StreamLine.complete])
    (hc : s.currentConversationId = some cid) :
    sendMessage env msg now s
      = ({ s with
            messages := s.messages ++
              [{ id := now, role := Role.user, content := msg, created_at := now },
               { id := now + 1, role := Role.assistant, content := "AB",
                 created_at := now }],
            streamingMessage := "",
            isLoading := false, isStreaming := false },
         SendResult.ok, [NetCall.openStream cid msg]) := by
  cases env
  cases s
  simp_all [sendMessage, streamPhase, processLines, onChunk, onComplete]

/-- Witness for c8_chunk_chunk_complete_appends_ab at a concrete session. -/
theorem c8_chunk_chunk_complete_appends_ab_witness :
    sendMessage ⟨true, none,
        some [StreamLine.chunk "A", StreamLine.chunk "B", StreamLine.complete]⟩
      "hi" 10 { initialState with currentConversationId := some 1 }
      = ({ initialState with
            messages :=
              [{ id := 10, role := Role.user, content := "hi", created_at := 10 },
               { id := 11, role := Role.assistant, content := "AB",
                 created_at := 10 }],
            currentConversationId := some 1 },
         SendResult.ok, [NetCall.openStream 1 "hi"]) := by
  have h := c8_chunk_chunk_complete_appends_ab ⟨true, none,
      some [StreamLine.chunk "A", StreamLine.chunk "B", StreamLine.complete]⟩
    { initialState with currentConversationId := some 1 } "hi" 1 10 rfl rfl rfl
  simpa [initialState] using h

/-- Claim C9: when the transcript fetch fails, loadConversation leaves the
messages and the conversation id unchanged and ends with status idle (taking
a session with no stream in flight, since loadConversation only manipulates
isLoading); its internal catch means no exception reaches the caller, which
the model reflects by being a total function into ChatState. -/
theorem c9_load_failure_soft (env : LoadEnv) (s : ChatState) (cid now : Nat)
    (hf : env.fetchResult = none) (hs : s.isStreaming = false) :
    (loadConversation env cid now s).messages = s.messages
    ∧ (loadConversation env cid now s).currentConversationId
        = s.currentConversationId
    ∧ status (loadConversation env cid now s) = Status.idle := by
  cases env with
  | mk u f =>
    subst hf
    cases u <;> simp [loadConversation, status, hs]

/-- Witness for c9_load_failure_soft at a concrete failed fetch. -/
theorem c9_load_failure_soft_witness :
    (loadConversation ⟨true, none⟩ 7 10 initialState).messages = []
    ∧ (loadConversation ⟨true, none⟩ 7 10 initialState).currentConversationId
        = none
    ∧ status (loadConversation ⟨true, none⟩ 7 10 initialState) = Status.idle :=
  c9_load_failure_soft ⟨true, none⟩ initialState 7 10 rfl rfl

/-- Claim C10: the parser keeps processing events after assistant_complete.
Chunks arriving after a complete are folded into the (freshly cleared) buffer
and into the running full message, and a second assistant_complete appends a
second assistant message whose content is the concatenation of every chunk
content seen since the start of the stream. -/
theorem c10_events_after_complete_processed (cs1 cs2 : List String)
    (s : ChatState) (now : Nat) :
    (processLines now
        (cs1.map StreamLine.chunk ++ [StreamLine.complete]
          ++ cs2.map StreamLine.chunk)
        { s with streamingMessage := "" } "").streamingMessage
      = concatContents cs2
    ∧ (processLines now
        (cs1.map StreamLine.chunk ++ [StreamLine.complete]
          ++ cs2.map StreamLine.chunk ++ [StreamLine.complete])
        { s with streamingMessage := "" } "").messages
      = s.messages ++
        [{ id := now + 1, role := Role.assistant, content := concatContents cs1,
           created_at := now },
         { id := now + 1, role := Role.assistant,
           content := concatContents cs1 ++ concatContents cs2,
           created_at := now }] := by
  constructor
  · rw [List.append_assoc, processLines_chunks_append]
    simp [processLines, onComplete, String.empty_append, processLines_chunks]
  · rw [List.append_assoc, List.append_assoc, processLines_chunks_append]
    simp [processLines, onComplete, String.empty_append, processLines_chunks_append,
      processLines_chunks]

end HealthChat
